/-
Verification of the SMRT orchestration core (smrt/core/model.py, interface.py,
result.py) against its natural-language specification, via a shallow embedding.

Conventions of the embedding:
* Python exceptions are modelled with `Except Err`; `Err.smrt` stands for
  `SMRTError` (the library's own error class) and `Err.external` for errors
  raised by third-party libraries (xarray, pandas, numpy) or by the Python
  runtime (KeyError, IndexError, TypeError).
* Coordinate labels of the labelled arrays are `Label` (a string such as a
  polarization, or a rational number such as a frequency or an angle).
* Numeric intensity values are a generic field `α`; transcendental operations
  (pi, cos, log10) are an explicit interpretation `MathOps α`, so the theorems
  hold for every interpretation of those operations.
-/
import Mathlib

namespace SMRT

/-- Python exceptions: `smrt` is the library's `SMRTError`, `external` is any
error raised by a third-party library or by the Python runtime. -/
inductive Err
  | smrt (msg : String)
  | external (msg : String)
  deriving DecidableEq, Repr

/-- A coordinate label of a labelled array: either a string (e.g. a
polarization `"V"`) or a number (e.g. a frequency or an angle). -/
inductive Label
  | str (s : String)
  | num (q : ℚ)
  deriving DecidableEq, Repr

/-! ### Python `dict` helpers

Python dicts preserve insertion order; assignment to an existing key replaces
the value in place, a new key is appended. We model a dict as an association
list with these update semantics and `List.lookup` as `dict[k]`. -/

/-- `d[k] = v` on a Python dict: replace in place if the key exists, else
append. -/
def dictInsert (m : List (String × β)) (k : String) (v : β) : List (String × β) :=
  if m.any (fun p => p.1 = k) then
    m.map (fun p => if p.1 = k then (k, v) else p)
  else
    m ++ [(k, v)]

/-- `d.update(d2)` on Python dicts: insert every pair of `d2` in order. -/
def dictUpdate (m m2 : List (String × β)) : List (String × β) :=
  m2.foldl (fun acc p => dictInsert acc p.1 p.2) m

/-- `d.pop(k, None)` (removal part): drop every binding of `k`. -/
def dictRemove (m : List (String × β)) (k : String) : List (String × β) :=
  m.filter (fun p => ¬ (p.1 = k))

/-! ### Chunking

`argument_list[i:i+n] for i in range(0, len(argument_list), n)`, used both by
`DaskParallelRunner.__call__` and by the reshaping loop of `Model.run`.
(The `n - 1` in the recursive call equals dropping `n` elements from the whole
list when `n ≥ 1`; Python raises on step `0`, so `0 < n` is assumed by every
lemma below.) -/

/-- One slicing step per chunk; the first argument is recursion fuel, always
instantiated with the list's length (each step consumes at least one element
when `0 < n`, so the fuel never runs out before the list does; structural
recursion on the fuel keeps the function kernel-computable). -/
def chunkListAux (n : ℕ) : ℕ → List γ → List (List γ)
  | _, [] => []
  | 0, _ :: _ => []
  | fuel + 1, x :: rest => (x :: rest).take n :: chunkListAux n fuel (rest.drop (n - 1))

def chunkList (n : ℕ) (xs : List γ) : List (List γ) :=
  chunkListAux n xs.length xs

theorem chunkListAux_flatten (n : ℕ) (hn : 0 < n) :
    ∀ (fuel : ℕ) (xs : List γ), xs.length ≤ fuel →
      (chunkListAux n fuel xs).flatten = xs := by
  intro fuel
  induction fuel with
  | zero =>
    intro xs hm
    have : xs = [] := List.length_eq_zero.mp (Nat.le_zero.mp hm)
    subst this
    rfl
  | succ m ih =>
    intro xs hm
    match xs with
    | [] => rfl
    | x :: rest =>
      rw [chunkListAux]
      obtain ⟨k, hk⟩ : ∃ k, n = k + 1 := ⟨n - 1, by omega⟩
      subst hk
      simp only [List.flatten, Nat.add_sub_cancel]
      rw [ih (rest.drop k)
        (by simp only [List.length_drop]
            simp only [List.length_cons] at hm
            omega)]
      simp [List.take_succ_cons, List.cons_append, List.take_append_drop]

theorem chunkList_flatten (n : ℕ) (hn : 0 < n) (xs : List γ) :
    (chunkList n xs).flatten = xs :=
  chunkListAux_flatten n hn xs.length xs (le_refl _)

theorem chunkListAux_length_mul (n : ℕ) (hn : 0 < n) :
    ∀ (m fuel : ℕ) (xs : List γ), xs.length ≤ fuel → xs.length = n * m →
      (chunkListAux n fuel xs).length = m := by
  intro m
  induction m with
  | zero =>
    intro fuel xs hfuel hlen
    have : xs = [] := List.length_eq_zero.mp (by omega)
    subst this
    cases fuel <;> rfl
  | succ m ih =>
    intro fuel xs hfuel hlen
    match fuel, xs, hlen with
    | _, [], hlen => simp at hlen; omega
    | 0, x :: rest, hlen => simp at hfuel
    | fuel + 1, x :: rest, hlen =>
      rw [chunkListAux]
      obtain ⟨k, hk⟩ : ∃ k, n = k + 1 := ⟨n - 1, by omega⟩
      subst hk
      simp only [List.length_cons, Nat.add_sub_cancel]
      rw [ih fuel (rest.drop k)
        (by simp only [List.length_drop]
            simp only [List.length_cons] at hfuel
            omega)
        (by simp only [List.length_drop]
            simp only [List.length_cons, Nat.mul_succ] at hlen ⊢
            omega)]

theorem chunkList_length_mul (n m : ℕ) (hn : 0 < n) (xs : List γ)
    (hlen : xs.length = n * m) : (chunkList n xs).length = m :=
  chunkListAux_length_mul n hn m xs.length xs (le_refl _) hlen

/-! ### The three runner strategies (`smrt/core/model.py`, lines 315-387)

A simulation unit's argument tuple is an opaque `γ`; the unit function
`Model.run_single_simulation` applied by `function(*args)` is an opaque
`f : γ → δ`. -/

/-- `SequentialRunner.__call__`:
`return [function(*args) for args in argument_list]`. -/
def SequentialRunner.run (f : γ → δ) (argument_list : List γ) : List δ :=
  argument_list.map f

/-- `JoblibParallelRunner.__call__`. Modelled from the spec: the joblib
library is an external collaborator; per the spec's runner contract
(§4.4) it "preserv[es] input order exactly, one result per input unit", i.e.
`Parallel(...)(delayed(function)(*args) for args in argument_list)` is an
order-preserving map of `function` over `argument_list`. -/
def JoblibParallelRunner.run (f : γ → δ) (argument_list : List γ) : List δ :=
  argument_list.map f

/-- `DaskParallelRunner.__call__`: the chunking loop
`for i in range(0, len(argument_list), n): futures += client.map(f1, args)`
followed by `client.gather(futures)`. The dask client is an external
collaborator, modelled from the spec (§4.4): `client.map` yields one future
per argument in input order and `gather` returns their values in the futures'
order; `function_with_single_numerical_threads` only caps the numeric thread
pool (ambient configuration with no effect on values) before applying
`function`. -/
def DaskParallelRunner.run (chunk : ℕ) (f : γ → δ) (argument_list : List γ) : List δ :=
  ((chunkList chunk argument_list).map (fun args => args.map f)).flatten

/-! ### Labelled arrays (the xarray `DataArray` fragment used by `result.py`)

A `DataArray` is a multi-dimensional labelled array: an ordered list of
dimensions (name and coordinate labels) and the flattened row-major values.
Only the operations `result.py` relies on are modelled: point selection with
`drop=True` (`sel`), concatenation along a new dimension (`xr.concat` with a
`pandas` index), `squeeze`, `size` and elementwise arithmetic.  xarray and
pandas are external libraries: their error behavior (unknown dimension or
label in `sel`, coordinate length mismatch in `concat`) surfaces as
`Err.external`, never as the library's `SMRTError`. -/

structure DataArray (α : Type) where
  dims : List (String × List Label)
  values : List α
  deriving DecidableEq, Repr

namespace DataArray

/-- The dimension names, as `x.dims` in xarray. -/
def dimNames (x : DataArray α) : List String :=
  x.dims.map Prod.fst

/-- `x.size`: the number of elements of the array. -/
def size (x : DataArray α) : ℕ :=
  x.values.length

/-- Elementwise map, as numpy broadcasting of a scalar function. -/
def mapDA (f : α → α) (x : DataArray α) : DataArray α :=
  ⟨x.dims, x.values.map f⟩

/-- From the flattened row-major values, keep, in every consecutive block of
`n * inner` values, the `i`-th sub-block of length `inner`: this is the value
part of a point selection at index `i` along a dimension of size `n` with
`inner` elements to its right.  (The fuel argument, instantiated with the
list's length, keeps the recursion structural and kernel-computable.) -/
def sliceDimAux (n inner i : ℕ) : ℕ → List α → List α
  | _, [] => []
  | 0, _ :: _ => []
  | fuel + 1, x :: rest =>
    (((x :: rest).drop (i * inner)).take inner) ++
      sliceDimAux n inner i fuel (rest.drop (n * inner - 1))

def sliceDim (n inner i : ℕ) (values : List α) : List α :=
  sliceDimAux n inner i values.length values

/-- `x.sel(key=v, drop=True)` for a single key: select the coordinate label
`v` along dimension `key` and drop that dimension.  As in xarray, an unknown
dimension name or an absent label raises (a library error, not an
`SMRTError`). -/
def selOne (x : DataArray α) (key : String) (v : Label) : Except Err (DataArray α) :=
  match x.dims.findIdx? (fun d => d.1 = key) with
  | none => .error (.external ("ValueError: dimension " ++ key ++ " does not exist"))
  | some j =>
    let labels := (x.dims.getD j ("", [])).2
    match labels.findIdx? (fun l => l = v) with
    | none => .error (.external "KeyError: not all values found in index")
    | some i =>
      let inner := ((x.dims.drop (j + 1)).map (fun d => d.2.length)).prod
      .ok ⟨x.dims.eraseIdx j, sliceDim labels.length inner i x.values⟩

/-- `x.sel(drop=True, **kwargs)`: apply the point selections of the keyword
filter in order. -/
def sel (x : DataArray α) (kwargs : List (String × Label)) : Except Err (DataArray α) :=
  kwargs.foldlM (fun acc p => selOne acc p.1 p.2) x

/-- `xr.concat(arrs, pd.Index(labels, name=name))`: stack the arrays along a
new outermost dimension `name` carrying `labels`.  The underlying library
rejects a coordinate whose length differs from the number of stacked arrays
(`conflicting sizes`), and stacking arrays of unequal dimensions. -/
def xrConcat (arrs : List (DataArray α)) (name : String) (labels : List Label) :
    Except Err (DataArray α) :=
  match arrs with
  | [] => .error (.external "ValueError: must supply at least one object to concatenate")
  | a0 :: rest =>
    if rest.any (fun a => ¬ (a.dims = a0.dims)) then
      .error (.external "ValueError: cannot align objects with different dimensions")
    else if ¬ ((a0 :: rest).length = labels.length) then
      .error (.external "ValueError: conflicting sizes for dimension")
    else
      .ok ⟨(name, labels) :: a0.dims, ((a0 :: rest).map values).flatten⟩

/-- `x / y` on two arrays of identical dimensions (the only use in
`result.py`, `polarization_ratio`, divides two selections of the same
array). -/
def divDA [Div α] (x y : DataArray α) : Except Err (DataArray α) :=
  if x.dims = y.dims then
    .ok ⟨x.dims, (x.values.zip y.values).map (fun p => p.1 / p.2)⟩
  else
    .error (.external "ValueError: cannot align objects with different dimensions")

/-- `x.squeeze()`: drop every dimension of length one; the flattened
row-major values are unchanged. -/
def squeeze (x : DataArray α) : DataArray α :=
  ⟨x.dims.filter (fun d => ¬ (d.2.length = 1)), x.values⟩

end DataArray

/-- `_strongsqueeze` (`result.py`, lines 440-447): squeeze, then return a bare
number (`float(x)`) when a single value remains, else the reduced array.
(`x.size` is the number of elements, i.e. the length of the flattened
values.) -/
def strongsqueeze (x : DataArray α) : α ⊕ DataArray α :=
  let y := x.squeeze
  match y.values with
  | [v] => Sum.inl v
  | _ => Sum.inr y

/-! ### Result entities (`result.py`)

The two concrete result classes `PassiveResult` (`mode = 'P'`) and
`ActiveResult` (`mode = 'A'`) share the storage: a labelled data array and a
channel map (channel name → dict of defining coordinate values).  The Python
`type(result)` comparison of `concat_results` reduces to comparing the mode,
these being the two concrete classes in the source. -/

inductive RMode
  | P
  | A
  deriving DecidableEq, Repr

structure ResultEntity (α : Type) where
  mode : RMode
  data : DataArray α
  channel_map : List (String × List (String × Label))
  deriving DecidableEq, Repr

/-- The channel-map merge of `concat_results` (`result.py`, line 431) for
results whose channel maps differ:
`{ch: dict(**r.channel_map[ch], dim_name=dv) for r, dv in zip(result_list, dim_value) for ch in r.channel_map}`.
Note that `dim_name=dv` is a Python keyword argument: the entry is recorded
under the literal key `"dim_name"`, not under the value of the variable
`dim_name`.  The dict comprehension assigns channels in iteration order, a
later occurrence of the same channel name overwriting an earlier one. -/
def mergeChannelMaps (result_list : List (ResultEntity α)) (dim_value : List Label) :
    List (String × List (String × Label)) :=
  (result_list.zip dim_value).foldl
    (fun acc p =>
      p.1.channel_map.foldl
        (fun acc2 chp => dictInsert acc2 chp.1 (chp.2 ++ [("dim_name", p.2)]))
        acc)
    []

/-- `concat_results(result_list, coord)` (`result.py`, lines 401-437) for a
tuple `coord = (dim_name, dim_value)` (the only form produced by the
reshaping loop of `Model.run`): check that all results are of the same
concrete class (`SMRTError` otherwise), compute the channel map (the merge
above when the maps differ, the shared map otherwise), and stack the data
arrays along the new dimension with `xr.concat`.  `result_list[0]` on an
empty list raises an IndexError. -/
def concat_results (result_list : List (ResultEntity α)) (coord : String × List Label) :
    Except Err (ResultEntity α) :=
  match result_list with
  | [] => .error (.external "IndexError: list index out of range")
  | r0 :: rest =>
    if (r0 :: rest).any (fun r => ¬ (r.mode = r0.mode)) then
      .error (.smrt "The results are not all of the same type")
    else
      let channel_map :=
        if (r0 :: rest).any (fun r => ¬ (r.channel_map = r0.channel_map)) then
          mergeChannelMaps (r0 :: rest) coord.2
        else
          r0.channel_map
      (DataArray.xrConcat ((r0 :: rest).map (fun r => r.data)) coord.1 coord.2).map
        (fun d => ⟨r0.mode, d, channel_map⟩)

/-- The reshaping loop of `Model.run` (`model.py`, lines 199-201):
`for dimension in reversed(dimensions): results = [concat_results(results[i:i+n], dimension) for i in range(0, len(results), n)]`
with `n = len(dimension[1])`.  An error raised by any `concat_results`
propagates immediately, as a Python exception does. -/
def modelRunFold (dimensions : List (String × List Label))
    (results : List (ResultEntity α)) : Except Err (List (ResultEntity α)) :=
  dimensions.reverse.foldlM
    (fun acc dimension =>
      (chunkList dimension.2.length acc).mapM (fun group => concat_results group dimension))
    results

/-- The same reshaping loop with an opaque total concatenation, used to state
the shape invariant of the fold independently of `concat_results`' error
cases. -/
def foldWith (concat : List R → (String × List Label) → R)
    (dimensions : List (String × List Label)) (results : List R) : List R :=
  dimensions.reverse.foldl
    (fun acc dimension =>
      (chunkList dimension.2.length acc).map (fun group => concat group dimension))
    results

/-! ### Selection and accessors (`result.py`, `PassiveResult`/`ActiveResult`)

The transcendental operations appearing in the backscatter transform and the
dB conversion are kept as an explicit interpretation, so every theorem below
holds for all interpretations of `pi`, `cos` and `log10`. -/

structure MathOps (α : Type) where
  pi : α
  cos : α → α
  log10 : α → α

/-- `smrt.utils.dB`.  Modelled from the spec: `smrt/utils.py` is not under
`src/`; per the spec (§4.6) "dB values are `10·log10`". -/
def dBf (ops : MathOps α) [Field α] (v : α) : α :=
  10 * ops.log10 v

/-- `dB` applied to what a scalar-returning accessor produced: elementwise on
an array, directly on a bare number. -/
def dBSum (ops : MathOps α) [Field α] : α ⊕ DataArray α → α ⊕ DataArray α :=
  Sum.map (dBf ops) (DataArray.mapDA (dBf ops))

namespace PassiveResult

/-- `PassiveResult.sel_data(channel=None, **kwargs)` (`result.py`, lines
151-160): when a channel is given, merge into the filter those entries of
`channel_map[channel]` whose key is a dimension of the stored array
(`if k in self.data.dims`), then select.  `channel_map[channel]` on an
unknown channel raises a KeyError. -/
def sel_data (r : ResultEntity α) (channel : Option String)
    (kwargs : List (String × Label)) : Except Err (DataArray α) :=
  match channel with
  | none => r.data.sel kwargs
  | some ch =>
    match r.channel_map.lookup ch with
    | none => .error (.external ("KeyError: " ++ ch))
    | some coords =>
      r.data.sel (dictUpdate kwargs (coords.filter (fun c => r.data.dimNames.contains c.1)))

/-- `PassiveResult.Tb`: `_strongsqueeze(self.sel_data(channel=channel, **kwargs))`. -/
def Tb (r : ResultEntity α) (channel : Option String)
    (kwargs : List (String × Label)) : Except Err (α ⊕ DataArray α) :=
  (sel_data r channel kwargs).map strongsqueeze

/-- `PassiveResult.TbV`: `_strongsqueeze(self.data.sel(polarization='V', **kwargs))`.
(For a point selection, xarray's `sel` without `drop=True` removes the
dimension just the same; `drop` only discards the leftover scalar
coordinate, which this model does not keep.) -/
def TbV (r : ResultEntity α) (kwargs : List (String × Label)) :
    Except Err (α ⊕ DataArray α) :=
  (r.data.sel (("polarization", Label.str "V") :: kwargs)).map strongsqueeze

/-- `PassiveResult.TbH`: `_strongsqueeze(self.data.sel(polarization='H', **kwargs))`. -/
def TbH (r : ResultEntity α) (kwargs : List (String × Label)) :
    Except Err (α ⊕ DataArray α) :=
  (r.data.sel (("polarization", Label.str "H") :: kwargs)).map strongsqueeze

/-- `PassiveResult.polarization_ratio(ratio="H_V", **kwargs)`:
`_strongsqueeze(self.data.sel(polarization=ratio[0], **kwargs) / self.data.sel(polarization=ratio[-1], **kwargs))`. -/
def polarization_ratio [Field α] (r : ResultEntity α) (ratio : String)
    (kwargs : List (String × Label)) : Except Err (α ⊕ DataArray α) := do
  let a ← r.data.sel (("polarization", Label.str (String.singleton ratio.front)) :: kwargs)
  let b ← r.data.sel (("polarization", Label.str (String.singleton ratio.back)) :: kwargs)
  (a.divDA b).map strongsqueeze

end PassiveResult

/-- The channel merge shared by both `sel_data` implementations
(`result.py`, lines 157-158 and 213-214):
`kwargs.update({k: v for k, v in self.channel_map[channel].items() if k in self.data.dims})`. -/
def mergedKwargs (r : ResultEntity α) (channel : Option String)
    (kwargs : List (String × Label)) : Except Err (List (String × Label)) :=
  match channel with
  | none => .ok kwargs
  | some ch =>
    match r.channel_map.lookup ch with
    | none => .error (.external ("KeyError: " ++ ch))
    | some coords =>
      .ok (dictUpdate kwargs (coords.filter (fun c => r.data.dimNames.contains c.1)))

namespace ActiveResult

/-- The `return_backscatter` argument: Python `False` is `none`, the strings
`"natural"` and `"dB"` are the two truthy values used by `sigma` and
`sigma_dB`. -/
inductive BS
  | natural
  | decibel
  deriving DecidableEq, Repr

/-- The backscatter coefficient `4 * np.pi * np.cos(np.deg2rad(theta))` for
one angle label; a non-numeric label cannot be converted to radians. -/
def bsCoefficient (ops : MathOps α) [Field α] (t : Label) : Except Err α :=
  match t with
  | .num q => .ok (4 * ops.pi * ops.cos ((q : α) * ops.pi / 180))
  | .str _ => .error (.external "TypeError: cannot convert a string angle to radians")

/-- Numpy broadcasting of the per-angle coefficients against the array along
its leading `theta_inc` dimension: the `i`-th block of `blockLen` flattened
values is scaled by the `i`-th coefficient. -/
def scaleBlocks [Field α] (coefs : List α) (blockLen : ℕ) (values : List α) : List α :=
  match coefs with
  | [] => []
  | c :: cs => (values.take blockLen).map (fun v => c * v) ++
      scaleBlocks cs blockLen (values.drop blockLen)

/-- `select_theta(x, theta, **kwargs)` (`result.py`, lines 231-236): select by
theta, selecting `theta` as well when it is among the coordinates. -/
def selectTheta (x : DataArray α) (t : Label) (kwargs : List (String × Label)) :
    Except Err (DataArray α) :=
  if x.dimNames.contains "theta" then
    x.sel (("theta", t) :: ("theta_inc", t) :: kwargs)
  else
    x.sel (("theta_inc", t) :: kwargs)

/-- The `return_backscatter` branch of `ActiveResult.sel_data` (`result.py`,
lines 216-249) up to and including the backscatter transform
`x = (4 * np.pi * np.cos(np.deg2rad(theta))) * x`: merge the channel filter,
pop `theta`/`theta_inc`, enforce their consistency (`SMRTError` when both are
given and differ), default the angle to the full `theta_inc` coordinate (a
sequence), select (concatenating over the angles when a sequence), and
scale.  The final dB conversion is applied by `sel_data` itself. -/
def sel_data_backscatter (ops : MathOps α) [Field α] (r : ResultEntity α)
    (channel : Option String) (kwargs : List (String × Label)) :
    Except Err (DataArray α) := do
  let kwargs ← mergedKwargs r channel kwargs
  let theta? := kwargs.lookup "theta"
  let theta_inc? := kwargs.lookup "theta_inc"
  let kwargs := dictRemove (dictRemove kwargs "theta") "theta_inc"
  if theta?.isSome ∧ theta_inc?.isSome ∧ ¬ (theta? = theta_inc?) then
    .error (.smrt "theta and theta_inc must be the same when returning backscatter")
  else do
    let thetaSel : Label ⊕ List Label ←
      match theta? with
      | some t => Except.ok (Sum.inl t)
      | none =>
        match theta_inc? with
        | some t => Except.ok (Sum.inl t)
        | none =>
          match r.data.dims.lookup "theta_inc" with
          | some ls => Except.ok (Sum.inr ls)
          | none => Except.error (Err.external "AttributeError: no attribute theta_inc")
    let x : DataArray α ←
      match thetaSel with
      | Sum.inl t => selectTheta r.data t kwargs
      | Sum.inr tl => do
        let slices ← tl.mapM (fun t => selectTheta r.data t kwargs)
        DataArray.xrConcat slices "theta_inc" tl
    match thetaSel with
    | Sum.inl t =>
      (bsCoefficient ops t).map (fun c => DataArray.mapDA (fun v => c * v) x)
    | Sum.inr tl =>
      (tl.mapM (bsCoefficient ops)).map (fun cs =>
        ⟨x.dims, scaleBlocks cs (((x.dims.drop 1).map (fun d => d.2.length)).prod) x.values⟩)

/-- `ActiveResult.sel_data(channel=None, return_backscatter=False, **kwargs)`
(`result.py`, lines 207-252).  The last line of the source,
`return dB(x) if return_backscatter == "dB" else x`, is the `map` over the
computed backscatter array. -/
def sel_data (ops : MathOps α) [Field α] (r : ResultEntity α)
    (channel : Option String) (return_backscatter : Option BS)
    (kwargs : List (String × Label)) : Except Err (DataArray α) :=
  match return_backscatter with
  | none => do
    let kwargs ← mergedKwargs r channel kwargs
    r.data.sel kwargs
  | some mode =>
    (sel_data_backscatter ops r channel kwargs).map
      (fun x =>
        match mode with
        | BS.natural => x
        | BS.decibel => DataArray.mapDA (dBf ops) x)

/-- `ActiveResult.sigma`:
`_strongsqueeze(self.sel_data(channel=channel, return_backscatter="natural", **kwargs))`. -/
def sigma (ops : MathOps α) [Field α] (r : ResultEntity α) (channel : Option String)
    (kwargs : List (String × Label)) : Except Err (α ⊕ DataArray α) :=
  (sel_data ops r channel (some BS.natural) kwargs).map strongsqueeze

/-- `ActiveResult.sigma_dB`:
`_strongsqueeze(self.sel_data(channel=channel, return_backscatter="dB", **kwargs))`. -/
def sigma_dB (ops : MathOps α) [Field α] (r : ResultEntity α) (channel : Option String)
    (kwargs : List (String × Label)) : Except Err (α ⊕ DataArray α) :=
  (sel_data ops r channel (some BS.decibel) kwargs).map strongsqueeze

/-- `ActiveResult.sigmaVV`: `self.sigma(polarization_inc='V', polarization='V', **kwargs)`. -/
def sigmaVV (ops : MathOps α) [Field α] (r : ResultEntity α)
    (kwargs : List (String × Label)) : Except Err (α ⊕ DataArray α) :=
  sigma ops r none
    (("polarization_inc", Label.str "V") :: ("polarization", Label.str "V") :: kwargs)

/-- `ActiveResult.sigmaHH`: `self.sigma(polarization_inc='H', polarization='H', **kwargs)`. -/
def sigmaHH (ops : MathOps α) [Field α] (r : ResultEntity α)
    (kwargs : List (String × Label)) : Except Err (α ⊕ DataArray α) :=
  sigma ops r none
    (("polarization_inc", Label.str "H") :: ("polarization", Label.str "H") :: kwargs)

/-- `ActiveResult.sigmaVV_dB`: `dB(self.sigmaVV(**kwargs))`. -/
def sigmaVV_dB (ops : MathOps α) [Field α] (r : ResultEntity α)
    (kwargs : List (String × Label)) : Except Err (α ⊕ DataArray α) :=
  (sigmaVV ops r kwargs).map (dBSum ops)

/-- `ActiveResult.sigmaHH_dB`: `dB(self.sigmaHH(**kwargs))`. -/
def sigmaHH_dB (ops : MathOps α) [Field α] (r : ResultEntity α)
    (kwargs : List (String × Label)) : Except Err (α ⊕ DataArray α) :=
  (sigmaHH ops r kwargs).map (dBSum ops)

end ActiveResult

/-! ### Plugin resolution and broadcasting (`interface.py`, `make_interface`) -/

/-- A Python keyword construction argument: a scalar value or a sequence of
values (`lib.is_sequence` distinguishes the two). -/
inductive PyArg
  | scalar (v : Label)
  | seq (vs : List Label)
  deriving DecidableEq, Repr

def PyArg.isSeq : PyArg → Bool
  | .scalar _ => false
  | .seq _ => true

/-- A constructed interface instance: the class it was built from and the
construction arguments it received (`interface_cls(**opts)`). -/
structure InterfaceInst where
  cls : String
  params : List (String × PyArg)
  deriving DecidableEq, Repr

/-- The first argument of `make_interface`: `None`, a module name string, a
class, an already-built instance (duck-typed on `specular_reflection_matrix`),
or anything else. -/
inductive InterfaceIdent
  | omitted
  | name (s : String)
  | cls (s : String)
  | inst (i : InterfaceInst) (hasSpecularReflectionMatrix : Bool)
  | other
  deriving DecidableEq, Repr

/-- `lib.get(kwargs, i)`.  Modelled from the spec: `smrt/core/lib.py` is not
under `src/`; per §4.1 the resolver builds the `i`-th instance by "extracting
the i-th element of every sequence-valued argument (scalar-valued arguments
are reused unchanged for every index)", and per §9 it "will index out of
range on shorter sequences" (a Python IndexError). -/
def lib_get (kwargs : List (String × PyArg)) (i : ℕ) :
    Except Err (List (String × PyArg)) :=
  kwargs.mapM (fun p =>
    match p.2 with
    | .scalar v => .ok (p.1, PyArg.scalar v)
    | .seq vs =>
      match vs[i]? with
      | some v => .ok (p.1, PyArg.scalar v)
      | none => .error (.external "IndexError: list index out of range"))

/-- `make_interface(inst_class_or_modulename, broadcast=True, **kwargs)`
(`interface.py`, lines 17-43).  `import_class` (`smrt/core/plugin.py`, not
under `src/`) is modelled from the spec (§4.1): a registry lookup by name
that "fails with a `PluginNotFound` error if absent".  The result is either a
single instance or a list of instances (the broadcast case). -/
def make_interface (registry : String → Option String)
    (inst_class_or_modulename : InterfaceIdent) (broadcast : Bool)
    (kwargs : List (String × PyArg)) :
    Except Err (InterfaceInst ⊕ List InterfaceInst) := do
  let interface_cls : String ←
    match inst_class_or_modulename with
    | .omitted => Except.ok "Flat"
    | .name s =>
      match registry s with
      | some c => Except.ok c
      | none => Except.error (Err.smrt ("PluginNotFound: " ++ s))
    | .cls s => Except.ok s
    | .inst i true => return Sum.inl i
    | .inst _ false =>
      Except.error (Err.smrt "The interface must be either the name of a module in the smrt.interface directory, or a class that implements the interface behavior.")
    | .other =>
      Except.error (Err.smrt "The interface must be either the name of a module in the smrt.interface directory, or a class that implements the interface behavior.")
  if broadcast ∧ ¬ (kwargs = []) then
    let l := kwargs.filterMap (fun p =>
      match p.2 with
      | .seq vs => some vs.length
      | .scalar _ => none)
    if ¬ (l = []) then
      let insts ← (List.range (l.foldl max 0)).mapM (fun i =>
        (lib_get kwargs i).map (fun ps => InterfaceInst.mk interface_cls ps))
      return Sum.inr insts
    else
      return Sum.inl ⟨interface_cls, kwargs⟩
  else
    return Sum.inl ⟨interface_cls, kwargs⟩

/-! ### Substrate composition (`interface.py`, `substrate_from_interface`)

An interface class exposes a subset of the four raw boundary operations, each
taking the permittivities of both media; `substrate_from_interface` derives a
substrate class whose boundary operations look the permittivity of medium 2
up from the substrate's permittivity model.  Permittivities are an opaque
type `ε` and the returned matrices an opaque type `β`; `name` stands for
`str(interface_cls)` in the error message. -/

structure InterfaceCls (ε β : Type) where
  name : String
  specular_reflection_matrix : Option (ℚ → ε → ε → ℚ → ℕ → β)
  coherent_transmission_matrix : Option (ℚ → ε → ε → ℚ → ℕ → β)
  diffuse_reflection_matrix : Option (ℚ → ε → ε → ℚ → ℚ → ℚ → ℕ → β)
  ft_even_diffuse_reflection_matrix : Option (ℚ → ε → ε → ℚ → ℚ → ℕ → ℕ → β)

/-- `SubstrateBase` state (`interface.py`, lines 76-88): a temperature and an
optional permittivity model (a function of frequency and temperature). -/
structure SubstrateBase (ε : Type) where
  temperature : Option ℚ
  permittivity_model : Option (ℚ → Option ℚ → ε)

/-- `SubstrateBase.permittivity(frequency)` (`interface.py`, lines 91-98):
`None` when no permittivity model is available, else the model evaluated at
the frequency and the substrate's temperature. -/
def SubstrateBase.permittivity (s : SubstrateBase ε) (frequency : ℚ) : Option ε :=
  match s.permittivity_model with
  | none => none
  | some f => some (f frequency s.temperature)

/-- The substrate class derived by the `substrate_from_interface` decorator:
for each of the four boundary operations, a method exists exactly when the
underlying interface class offers the corresponding raw operation
(`auto_add`'s `hasattr(interface_cls, dependency)` check; the decorated
class body is `pass` in the source, so no richer override preempts the
synthesized method).  Each synthesized method computes
`eps_2 = self.permittivity(frequency)`, raises the `SMRTError`
`"No permittivity_model have been given to the substrate '...'"` when it is
`None`, and otherwise delegates to the raw operation with `eps_2`
substituted. -/
structure DerivedSubstrate (ε β : Type) where
  base : SubstrateBase ε
  specular_reflection_matrix : Option (ℚ → ε → ℚ → ℕ → Except Err β)
  emissivity_matrix : Option (ℚ → ε → ℚ → ℕ → Except Err β)
  diffuse_reflection_matrix : Option (ℚ → ε → ℚ → ℚ → ℚ → ℕ → Except Err β)
  ft_even_diffuse_reflection_matrix : Option (ℚ → ε → ℚ → ℚ → ℕ → ℕ → Except Err β)

/-- The `MissingPermittivityModel` error message of the synthesized methods. -/
def missingPermittivityMsg (ic : InterfaceCls ε β) : Err :=
  .smrt ("No permittivity_model have been given to the substrate '" ++ ic.name ++ "'")

/-- `substrate_from_interface(interface_cls)` applied to a class with no
overrides, then instantiated with a temperature and a permittivity model
(the synthesized `__init__`). -/
def substrate_from_interface (ic : InterfaceCls ε β) (temperature : Option ℚ)
    (permittivity_model : Option (ℚ → Option ℚ → ε)) : DerivedSubstrate ε β :=
  let base : SubstrateBase ε := ⟨temperature, permittivity_model⟩
  let withEps {σ : Type} (raw : ε → σ) (frequency : ℚ) : Except Err σ :=
    match base.permittivity frequency with
    | none => .error (missingPermittivityMsg ic)
    | some eps_2 => .ok (raw eps_2)
  { base := base
    specular_reflection_matrix := ic.specular_reflection_matrix.map
      (fun raw frequency eps_1 mu1 npol =>
        (withEps (fun eps_2 => raw frequency eps_1 eps_2 mu1 npol) frequency))
    emissivity_matrix := ic.coherent_transmission_matrix.map
      (fun raw frequency eps_1 mu1 npol =>
        (withEps (fun eps_2 => raw frequency eps_1 eps_2 mu1 npol) frequency))
    diffuse_reflection_matrix := ic.diffuse_reflection_matrix.map
      (fun raw frequency eps_1 mu_s mu_i dphi npol =>
        (withEps (fun eps_2 => raw frequency eps_1 eps_2 mu_s mu_i dphi npol) frequency))
    ft_even_diffuse_reflection_matrix := ic.ft_even_diffuse_reflection_matrix.map
      (fun raw frequency eps_1 mu_s mu_i m_max npol =>
        (withEps (fun eps_2 => raw frequency eps_1 eps_2 mu_s mu_i m_max npol) frequency)) }

/-! ### Simulation expansion (`model.py`, `Model.prepare_simulations`) -/

/-- Modelled from the spec: `smrt/core/sensor.py` is not under `src/`.  Per
the spec (§3), a sensor configuration carries named decomposition axes with
ordered values (`sensor.configurations()` yields the `(axis, values)` pairs),
and "can be decomposed ('iterated') along a named axis into a sequence of
narrower SensorConfigurations" — one per value of that axis.  Each narrower
sensor fixes one value of the iterated axis; the model drops the exhausted
axis (the fixed value itself plays no further role in the expansion). -/
structure Sensor where
  configs : List (String × List Label)
  deriving DecidableEq, Repr

/-- Modelled from the spec: `sensor.iterate(axis)` yields one narrower sensor
per value of the axis, with the exhausted axis removed. -/
def Sensor.iterate (s : Sensor) (axis : String) : List Sensor :=
  (((s.configs.find? (fun c => c.1 = axis)).map Prod.snd).getD []).map
    (fun _v => Sensor.mk (s.configs.filter (fun c => ¬ (c.1 = axis))))

/-- The `snowpack` argument accepted by `Model.run`/`prepare_simulations`: a
single snowpack, a list, or a name→snowpack mapping.  (The `SensitivityStudy`
and `pandas.Series` forms, which normalize to the list form exactly like the
dict does, are external types and are not modelled.) -/
inductive SnowpackArg (S : Type)
  | single (sp : S)
  | many (sps : List S)
  | dict (entries : List (String × S))

/-- `prepare_recursive(sensor, sensor_configurations)` (`model.py`, lines
245-256): decompose the sensor one non-native axis at a time and, at the
innermost level, pair each sensor variant with every snowpack in sequence
order (`spseq = .inl list`) or with the single snowpack (`spseq = .inr sp`). -/
def prepareRecursive (spseq : List S ⊕ S) :
    Sensor → List (String × List Label) → List (Sensor × S)
  | sensor, [] =>
    match spseq with
    | Sum.inl sps => sps.map (fun sp => (sensor, sp))
    | Sum.inr sp => [(sensor, sp)]
  | sensor, (axis, _values) :: rest =>
    (sensor.iterate axis).flatMap (fun sub => prepareRecursive spseq sub rest)

/-- The dict branch of `prepare_simulations` (`model.py`, lines 217-219): a
dict becomes its value list and the `"snowpack"` dimension carries its keys
(overriding any explicit `snowpack_dimension`); the other forms pass
through.  (`SensitivityStudy` and `pandas.Series` normalize the same way but
are external types and are not modelled.) -/
def normalizeDict (snowpack : SnowpackArg S)
    (snowpack_dimension : Option (String × Option (List Label))) :
    SnowpackArg S × Option (String × Option (List Label)) :=
  match snowpack with
  | .dict entries =>
    (SnowpackArg.many (entries.map Prod.snd),
      some ("snowpack", some (entries.map (fun e => Label.str e.1))))
  | sp => (sp, snowpack_dimension)

/-- The sequence defaults of `prepare_simulations` (`model.py`, lines
227-231): a sequence with no dimension gets `("snowpack", None)`, and `None`
dimension values become `range(len(snowpack))`. -/
def applySeqDefaults (snowpack : SnowpackArg S) :
    Option (String × Option (List Label)) → Option (String × Option (List Label))
  | none =>
    match snowpack with
    | .many sps =>
      some ("snowpack", some ((List.range sps.length).map (fun i : ℕ => Label.num i)))
    | _ => none
  | some (nm, none) =>
    match snowpack with
    | .many sps =>
      some (nm, some ((List.range sps.length).map (fun i : ℕ => Label.num i)))
    | _ => some (nm, none)
  | some (nm, some values) => some (nm, some values)

/-- The tail of `prepare_simulations` (`model.py`, lines 233-264) after
normalization: check that the dimension's value count matches the snowpack
count (`SMRTError` otherwise; `len(...)` on a single snowpack or on `None`
values raises a TypeError), split the sensor along every axis the RT solver
cannot natively broadcast, and return the flat simulation list together with
the `(axis, values)` dimensions, outermost first. -/
def prepareFinal (sensor : Sensor) (broadcast_capability : List String) :
    SnowpackArg S → Option (String × Option (List Label)) →
      Except Err (List (Sensor × S) × List (String × List Label))
  | .single _, some (_, none) =>
    Except.error (Err.external "TypeError: object of type NoneType has no len()")
  | .many _, some (_, none) =>
    Except.error (Err.external "TypeError: object of type NoneType has no len()")
  | .dict _, some (_, none) =>
    Except.error (Err.external "TypeError: object of type NoneType has no len()")
  | .single _, some (_, some _) =>
    Except.error (Err.external "TypeError: object of type Snowpack has no len()")
  | .dict _, some (_, some _) =>
    Except.error (Err.external "unreachable: the dict form was normalized above")
  | .dict _, none =>
    Except.error (Err.external "unreachable: the dict form was normalized above")
  | .many sps, some (nm, some values) =>
    if ¬ (sps.length = values.length) then
      Except.error (Err.smrt "The list of snowpacks must have the same length as the snowpack_dimension")
    else
      Except.ok (prepareRecursive (Sum.inl sps) sensor
        (sensor.configs.filter
          (fun (c : String × List Label) => ¬ broadcast_capability.contains c.1)),
        sensor.configs.filter
          (fun (c : String × List Label) => ¬ broadcast_capability.contains c.1)
          ++ [(nm, values)])
  | .many _, none =>
    Except.error (Err.external "unreachable: a sequence always gets a dimension above")
  | .single sp, none =>
    Except.ok (prepareRecursive (Sum.inr sp) sensor
      (sensor.configs.filter
        (fun (c : String × List Label) => ¬ broadcast_capability.contains c.1)),
      sensor.configs.filter
        (fun (c : String × List Label) => ¬ broadcast_capability.contains c.1))

/-- `Model.prepare_simulations(sensor, snowpack, snowpack_dimension)`
(`model.py`, lines 206-264): normalize the snowpack argument, apply the
sequence defaults, then run the checks and the recursive sensor
decomposition. -/
def prepare_simulations (sensor : Sensor) (broadcast_capability : List String)
    (snowpack : SnowpackArg S)
    (snowpack_dimension : Option (String × Option (List Label))) :
    Except Err (List (Sensor × S) × List (String × List Label)) :=
  prepareFinal sensor broadcast_capability
    (normalizeDict snowpack snowpack_dimension).1
    (applySeqDefaults (normalizeDict snowpack snowpack_dimension).1
      (normalizeDict snowpack snowpack_dimension).2)

/-- Discriminates the library's own `SMRTError` from any other outcome. -/
def isSMRTError : Except Err γ → Bool
  | .error (.smrt _) => true
  | _ => false

/-- Discriminates the broadcast outcome of `make_interface` (a list of
instances) from any other outcome. -/
def isInstanceList : Except Err (InterfaceInst ⊕ List InterfaceInst) → Bool
  | .ok (Sum.inr _) => true
  | _ => false

/-- The premise under which the spec-modelled sensor behaves as
`prepare_recursive` assumes: the head of the pending configuration list is
found among the sensor's configurations (so `iterate` yields one sub-sensor
per axis value), and every sub-sensor again matches the remaining
configurations.  `matches_of_filter` below shows this holds for every sensor
with distinct axis names and every filtered configuration list, i.e. for
every input `prepare_simulations` accepts. -/
def Matches : Sensor → List (String × List Label) → Prop
  | _, [] => True
  | s, (axis, values) :: rest =>
    s.configs.find? (fun c => c.1 = axis) = some (axis, values) ∧
    Matches (Sensor.mk (s.configs.filter (fun c => ¬ (c.1 = axis)))) rest

/-! ## Helper lemmas -/

theorem except_ok_bind {f : γ → Except Err δ} (a : γ) : (Except.ok a >>= f) = f a :=
  rfl

theorem foldl_max_const (n : ℕ) :
    ∀ (l : List ℕ) (a : ℕ), (∀ x ∈ l, x = n) → l ≠ [] → l.foldl max a = max a n := by
  intro l
  induction l with
  | nil => intro a _ hne; exact absurd rfl hne
  | cons x xs ih =>
    intro a hall _
    have hx : x = n := hall x (by simp)
    match xs with
    | [] => simp [List.foldl, hx]
    | y :: ys =>
      have hrec := ih (max a x) (fun z hz => hall z (by simp [hz])) (by simp)
      simp only [List.foldl] at hrec ⊢
      rw [hrec, hx]
      omega

theorem mapM_ok_of_all {f : γ → Except Err δ} {g : γ → δ} :
    ∀ (l : List γ), (∀ x ∈ l, f x = .ok (g x)) → l.mapM f = .ok (l.map g) := by
  intro l
  induction l with
  | nil => intro _; rfl
  | cons x xs ih =>
    intro hall
    rw [List.mapM_cons, hall x (by simp), ih (fun z hz => hall z (by simp [hz]))]
    rfl

theorem lib_get_ok (kwargs : List (String × PyArg)) (i : ℕ)
    (h : ∀ p ∈ kwargs, ∀ vs, p.2 = PyArg.seq vs → i < vs.length) :
    lib_get kwargs i = .ok (kwargs.map (fun p =>
      (p.1, PyArg.scalar
        (match p.2 with
         | .scalar v => v
         | .seq vs => vs.getD i (Label.num 0))))) := by
  unfold lib_get
  apply mapM_ok_of_all
  intro p hp
  match hv : p.2 with
  | .scalar v => simp
  | .seq vs =>
    have hlt : i < vs.length := h p hp vs hv
    simp [List.getElem?_eq_getElem hlt, List.getD_eq_getElem _ _ hlt]

theorem strongsqueeze_mapDA (f : α → α) (x : DataArray α) :
    strongsqueeze (DataArray.mapDA f x) =
      Sum.map f (DataArray.mapDA f) (strongsqueeze x) := by
  rcases x with ⟨dims, values⟩
  match values with
  | [] => rfl
  | [v] => rfl
  | v :: w :: rest => rfl

/-! ## Claims -/

/-- C1: For every unit function and every sequence of argument tuples, each
of the three runner strategies (SequentialRunner, JoblibParallelRunner,
DaskParallelRunner) returns one result per input unit in exactly the input
order — each equals the plain ordered map of the unit function — so the
folded result of a run is the same regardless of which strategy is chosen. -/
theorem c1_runner_strategies_interchangeable (f : γ → ResultEntity α)
    (argument_list : List γ) (chunk : ℕ) (hchunk : 0 < chunk) :
    SequentialRunner.run f argument_list = argument_list.map f ∧
    JoblibParallelRunner.run f argument_list = argument_list.map f ∧
    DaskParallelRunner.run chunk f argument_list = argument_list.map f ∧
    (∀ dimensions : List (String × List Label),
      modelRunFold dimensions (DaskParallelRunner.run chunk f argument_list) =
        modelRunFold dimensions (SequentialRunner.run f argument_list) ∧
      modelRunFold dimensions (JoblibParallelRunner.run f argument_list) =
        modelRunFold dimensions (SequentialRunner.run f argument_list)) := by
  have hdask : DaskParallelRunner.run chunk f argument_list = argument_list.map f := by
    unfold DaskParallelRunner.run
    rw [← List.map_flatten, chunkList_flatten chunk hchunk]
  refine ⟨rfl, rfl, hdask, fun dimensions => ⟨?_, rfl⟩⟩
  rw [hdask]
  rfl

/-- Witness for C1 at a concrete unit function, three argument tuples and
chunk size 2. -/
theorem c1_runner_strategies_interchangeable_witness :
    0 < 2 ∧
    (SequentialRunner.run
        (fun n : ℕ => ResultEntity.mk RMode.P ⟨[], [(n : ℚ)]⟩ []) [1, 2, 3] =
      [1, 2, 3].map (fun n : ℕ => ResultEntity.mk RMode.P ⟨[], [(n : ℚ)]⟩ []) ∧
     JoblibParallelRunner.run
        (fun n : ℕ => ResultEntity.mk RMode.P ⟨[], [(n : ℚ)]⟩ []) [1, 2, 3] =
      [1, 2, 3].map (fun n : ℕ => ResultEntity.mk RMode.P ⟨[], [(n : ℚ)]⟩ []) ∧
     DaskParallelRunner.run 2
        (fun n : ℕ => ResultEntity.mk RMode.P ⟨[], [(n : ℚ)]⟩ []) [1, 2, 3] =
      [1, 2, 3].map (fun n : ℕ => ResultEntity.mk RMode.P ⟨[], [(n : ℚ)]⟩ []) ∧
     (∀ dimensions : List (String × List Label),
       modelRunFold dimensions (DaskParallelRunner.run 2
          (fun n : ℕ => ResultEntity.mk RMode.P ⟨[], [(n : ℚ)]⟩ []) [1, 2, 3]) =
         modelRunFold dimensions (SequentialRunner.run
          (fun n : ℕ => ResultEntity.mk RMode.P ⟨[], [(n : ℚ)]⟩ []) [1, 2, 3]) ∧
       modelRunFold dimensions (JoblibParallelRunner.run
          (fun n : ℕ => ResultEntity.mk RMode.P ⟨[], [(n : ℚ)]⟩ []) [1, 2, 3]) =
         modelRunFold dimensions (SequentialRunner.run
          (fun n : ℕ => ResultEntity.mk RMode.P ⟨[], [(n : ℚ)]⟩ []) [1, 2, 3]))) :=
  ⟨by decide,
   c1_runner_strategies_interchangeable
     (fun n : ℕ => ResultEntity.mk RMode.P ⟨[], [(n : ℚ)]⟩ []) [1, 2, 3] 2 (by decide)⟩

/-- C2 (amended): For every call to `make_interface` with a class identifier
and keyword construction arguments of which at least one is a sequence,
PROVIDED every sequence-valued argument has the maximum sequence length `n`,
the result is a list of exactly `n` instances, the `i`-th of which receives
the `i`-th element of every sequence-valued argument and every scalar-valued
argument unchanged.  (The proviso is forced by `c2_counterexample`: with
sequences of unequal lengths the source indexes the shorter sequence out of
range instead of returning a list.) -/
theorem c2_make_interface_broadcast (registry : String → Option String)
    (c : String) (kwargs : List (String × PyArg)) (n : ℕ)
    (hseq : kwargs.any (fun p => p.2.isSeq) = true)
    (hlen : ∀ p ∈ kwargs, ∀ vs, p.2 = PyArg.seq vs → vs.length = n) :
    make_interface registry (.cls c) true kwargs =
      .ok (Sum.inr ((List.range n).map (fun i =>
        InterfaceInst.mk c (kwargs.map (fun p =>
          (p.1, PyArg.scalar
            (match p.2 with
             | .scalar v => v
             | .seq vs => vs.getD i (Label.num 0)))))))) := by
  obtain ⟨p0, hp0, hp0seq⟩ := List.any_eq_true.mp hseq
  have hkne : ¬ (kwargs = []) := by
    intro h
    rw [h] at hp0
    exact absurd hp0 (List.not_mem_nil p0)
  obtain ⟨vs0, hvs0⟩ : ∃ vs, p0.2 = PyArg.seq vs := by
    match hv : p0.2 with
    | .scalar v => rw [hv] at hp0seq; exact absurd hp0seq (by simp [PyArg.isSeq])
    | .seq vs => exact ⟨vs, rfl⟩
  have hmem : n ∈ kwargs.filterMap (fun p =>
      match p.2 with
      | PyArg.seq vs => some vs.length
      | PyArg.scalar _ => none) := by
    apply List.mem_filterMap.mpr
    refine ⟨p0, hp0, ?_⟩
    rw [hvs0]
    simp [hlen p0 hp0 vs0 hvs0]
  have hlne : ¬ (kwargs.filterMap (fun p =>
      match p.2 with
      | PyArg.seq vs => some vs.length
      | PyArg.scalar _ => none) = []) := by
    intro h
    rw [h] at hmem
    exact absurd hmem (List.not_mem_nil n)
  have halln : ∀ x ∈ kwargs.filterMap (fun p =>
      match p.2 with
      | PyArg.seq vs => some vs.length
      | PyArg.scalar _ => none), x = n := by
    intro x hx
    obtain ⟨p, hp, hpx⟩ := List.mem_filterMap.mp hx
    match hv : p.2 with
    | .scalar v => rw [hv] at hpx; simp at hpx
    | .seq vs =>
      rw [hv] at hpx
      simp at hpx
      rw [← hpx]
      exact hlen p hp vs hv
  have hmax : (kwargs.filterMap (fun p =>
      match p.2 with
      | PyArg.seq vs => some vs.length
      | PyArg.scalar _ => none)).foldl max 0 = n := by
    rw [foldl_max_const n _ 0 halln hlne]
    omega
  unfold make_interface
  simp only [hkne, not_false_iff, and_self, if_true, true_and]
  rw [except_ok_bind]
  rw [if_pos hlne, hmax]
  rw [mapM_ok_of_all (List.range n) (f := fun i =>
    (lib_get kwargs i).map (fun ps => InterfaceInst.mk c ps))
    (g := fun i => InterfaceInst.mk c (kwargs.map (fun p =>
      (p.1, PyArg.scalar
        (match p.2 with
         | .scalar v => v
         | .seq vs => vs.getD i (Label.num 0))))))]
  · rfl
  · intro i hi
    rw [lib_get_ok kwargs i (fun p hp vs hv => by rw [hlen p hp vs hv]; exact List.mem_range.mp hi)]
    rfl

/-- C2 (counterexample): the claim as stated is false: with two sequence
arguments of lengths 2 and 1, the source computes the maximum length 2 and
then indexes the 1-element sequence at position 1, raising an IndexError
instead of returning a list of 2 instances. -/
theorem c2_counterexample :
    make_interface (fun _ => none) (.cls "iba") true
        [("a", PyArg.seq [Label.num 1, Label.num 2]), ("b", PyArg.seq [Label.num 3])] =
      .error (.external "IndexError: list index out of range") ∧
    isInstanceList (make_interface (fun _ => none) (.cls "iba") true
        [("a", PyArg.seq [Label.num 1, Label.num 2]), ("b", PyArg.seq [Label.num 3])]) =
      false :=
  ⟨rfl, rfl⟩

/-- Witness for C2 (amended) at the spec's own example: one scalar argument
plus one 3-element sequence argument yields exactly 3 instances, each with
the scalar reused and the `i`-th sequence element. -/
theorem c2_make_interface_broadcast_witness :
    ([("temperature", PyArg.scalar (Label.num 270)),
      ("roughness", PyArg.seq [Label.num 1, Label.num 2, Label.num 3])].any
        (fun p => p.2.isSeq) = true) ∧
    make_interface (fun _ => none) (.cls "geometrical_optics") true
        [("temperature", PyArg.scalar (Label.num 270)),
         ("roughness", PyArg.seq [Label.num 1, Label.num 2, Label.num 3])] =
      .ok (Sum.inr
        [⟨"geometrical_optics",
          [("temperature", PyArg.scalar (Label.num 270)),
           ("roughness", PyArg.scalar (Label.num 1))]⟩,
         ⟨"geometrical_optics",
          [("temperature", PyArg.scalar (Label.num 270)),
           ("roughness", PyArg.scalar (Label.num 2))]⟩,
         ⟨"geometrical_optics",
          [("temperature", PyArg.scalar (Label.num 270)),
           ("roughness", PyArg.scalar (Label.num 3))]⟩]) := by
  constructor
  · rfl
  · have h := c2_make_interface_broadcast (fun _ => none) "geometrical_optics"
      [("temperature", PyArg.scalar (Label.num 270)),
       ("roughness", PyArg.seq [Label.num 1, Label.num 2, Label.num 3])] 3
      (by rfl)
      (by
        intro p hp vs hv
        fin_cases hp
        · exact absurd hv (by simp)
        · simp at hv
          rw [← hv]
          rfl)
    rw [h]
    rfl

/-- C8: Every auto-derived substrate boundary operation (specular reflection,
emissivity/coherent transmission, diffuse reflection, Fourier-decomposed
diffuse reflection) fails with the `MissingPermittivityModel` error when the
substrate has no permittivity model set — it never delegates to the
underlying interface operation with a defaulted permittivity — and a derived
operation exists exactly when the interface offers the raw operation it
depends on. -/
theorem c8_substrate_missing_permittivity_model (ic : InterfaceCls ε β)
    (temperature : Option ℚ) :
    (∀ g, (substrate_from_interface ic temperature none).specular_reflection_matrix = some g →
      ∀ (frequency : ℚ) (eps_1 : ε) (mu1 : ℚ) (npol : ℕ),
        g frequency eps_1 mu1 npol = .error (missingPermittivityMsg ic)) ∧
    (∀ g, (substrate_from_interface ic temperature none).emissivity_matrix = some g →
      ∀ (frequency : ℚ) (eps_1 : ε) (mu1 : ℚ) (npol : ℕ),
        g frequency eps_1 mu1 npol = .error (missingPermittivityMsg ic)) ∧
    (∀ g, (substrate_from_interface ic temperature none).diffuse_reflection_matrix = some g →
      ∀ (frequency : ℚ) (eps_1 : ε) (mu_s mu_i dphi : ℚ) (npol : ℕ),
        g frequency eps_1 mu_s mu_i dphi npol = .error (missingPermittivityMsg ic)) ∧
    (∀ g, (substrate_from_interface ic temperature none).ft_even_diffuse_reflection_matrix = some g →
      ∀ (frequency : ℚ) (eps_1 : ε) (mu_s mu_i : ℚ) (m_max npol : ℕ),
        g frequency eps_1 mu_s mu_i m_max npol = .error (missingPermittivityMsg ic)) ∧
    (substrate_from_interface ic temperature none).specular_reflection_matrix.isSome =
      ic.specular_reflection_matrix.isSome ∧
    (substrate_from_interface ic temperature none).emissivity_matrix.isSome =
      ic.coherent_transmission_matrix.isSome ∧
    (substrate_from_interface ic temperature none).diffuse_reflection_matrix.isSome =
      ic.diffuse_reflection_matrix.isSome ∧
    (substrate_from_interface ic temperature none).ft_even_diffuse_reflection_matrix.isSome =
      ic.ft_even_diffuse_reflection_matrix.isSome := by
  refine ⟨?_, ?_, ?_, ?_, ?_, ?_, ?_, ?_⟩
  · intro g hg frequency eps_1 mu1 npol
    match hic : ic.specular_reflection_matrix with
    | none => simp [substrate_from_interface, hic] at hg
    | some raw =>
      simp only [substrate_from_interface, hic, Option.map_some', Option.some.injEq] at hg
      rw [← hg]
      rfl
  · intro g hg frequency eps_1 mu1 npol
    match hic : ic.coherent_transmission_matrix with
    | none => simp [substrate_from_interface, hic] at hg
    | some raw =>
      simp only [substrate_from_interface, hic, Option.map_some', Option.some.injEq] at hg
      rw [← hg]
      rfl
  · intro g hg frequency eps_1 mu_s mu_i dphi npol
    match hic : ic.diffuse_reflection_matrix with
    | none => simp [substrate_from_interface, hic] at hg
    | some raw =>
      simp only [substrate_from_interface, hic, Option.map_some', Option.some.injEq] at hg
      rw [← hg]
      rfl
  · intro g hg frequency eps_1 mu_s mu_i m_max npol
    match hic : ic.ft_even_diffuse_reflection_matrix with
    | none => simp [substrate_from_interface, hic] at hg
    | some raw =>
      simp only [substrate_from_interface, hic, Option.map_some', Option.some.injEq] at hg
      rw [← hg]
      rfl
  · simp [substrate_from_interface]
  · simp [substrate_from_interface]
  · simp [substrate_from_interface]
  · simp [substrate_from_interface]

/-- Witness for C8 at a concrete interface class exposing a specular
reflection operation: the derived substrate with no permittivity model
returns the `MissingPermittivityModel` error at concrete arguments. -/
theorem c8_substrate_missing_permittivity_model_witness :
    ((substrate_from_interface
        (InterfaceCls.mk "Flat"
          (some (fun (_ : ℚ) (eps_1 : ℚ) (eps_2 : ℚ) (_ : ℚ) (_ : ℕ) => eps_1 + eps_2))
          none none none)
        none none).specular_reflection_matrix).map
        (fun g => g 10 2 (1 / 2) 2) =
      some (Except.error
        (Err.smrt "No permittivity_model have been given to the substrate 'Flat'")) := by
  have h := (c8_substrate_missing_permittivity_model
    (InterfaceCls.mk "Flat"
      (some (fun (_ : ℚ) (eps_1 : ℚ) (eps_2 : ℚ) (_ : ℚ) (_ : ℕ) => eps_1 + eps_2))
      none none none)
    none).1
  have hsome : (substrate_from_interface
      (InterfaceCls.mk "Flat"
        (some (fun (_ : ℚ) (eps_1 : ℚ) (eps_2 : ℚ) (_ : ℚ) (_ : ℕ) => eps_1 + eps_2))
        none none none)
      none none).specular_reflection_matrix =
    some ((substrate_from_interface
      (InterfaceCls.mk "Flat"
        (some (fun (_ : ℚ) (eps_1 : ℚ) (eps_2 : ℚ) (_ : ℚ) (_ : ℕ) => eps_1 + eps_2))
        none none none)
      none none).specular_reflection_matrix.get (by rfl)) := (Option.some_get _).symm
  have h2 := h _ hsome 10 2 (1 / 2) 2
  rw [hsome, Option.map_some', h2]
  rfl

/-- C5: Calling an Active-result backscatter accessor (`sigma`, `sigma_dB`,
or `sel_data` with `return_backscatter` set to either truthy value) with both
`theta` and `theta_inc` filters given and set to different values fails with
the `InconsistentAngle` `SMRTError` — it never silently picks one of the two
angles. -/
theorem c5_inconsistent_angle (ops : MathOps α) [Field α] (r : ResultEntity α)
    (kwargs : List (String × Label)) (t ti : Label) (mode : ActiveResult.BS)
    (ht : kwargs.lookup "theta" = some t)
    (hti : kwargs.lookup "theta_inc" = some ti)
    (hne : ¬ (t = ti)) :
    ActiveResult.sel_data ops r none (some mode) kwargs =
      .error (.smrt "theta and theta_inc must be the same when returning backscatter") ∧
    ActiveResult.sigma ops r none kwargs =
      .error (.smrt "theta and theta_inc must be the same when returning backscatter") ∧
    ActiveResult.sigma_dB ops r none kwargs =
      .error (.smrt "theta and theta_inc must be the same when returning backscatter") := by
  have hcore : ActiveResult.sel_data_backscatter ops r none kwargs =
      .error (.smrt "theta and theta_inc must be the same when returning backscatter") := by
    simp only [ActiveResult.sel_data_backscatter, mergedKwargs, except_ok_bind, ht, hti,
      Option.isSome_some, Option.some.injEq, true_and]
    rw [if_pos hne]
  have hsel : ∀ m : ActiveResult.BS, ActiveResult.sel_data ops r none (some m) kwargs =
      .error (.smrt "theta and theta_inc must be the same when returning backscatter") := by
    intro m
    simp only [ActiveResult.sel_data, hcore]
    rfl
  exact ⟨hsel mode,
    by simp only [ActiveResult.sigma, hsel]; rfl,
    by simp only [ActiveResult.sigma_dB, hsel]; rfl⟩

/-- Witness for C5: requesting backscatter with `theta=30` and `theta_inc=40`
on a concrete active result errors. -/
theorem c5_inconsistent_angle_witness :
    ([("theta", Label.num 30), ("theta_inc", Label.num 40)].lookup "theta" =
        some (Label.num 30)) ∧
    ¬ (Label.num 30 = Label.num 40) ∧
    ActiveResult.sigma_dB (MathOps.mk (3 : ℚ) id id)
        (ResultEntity.mk RMode.A ⟨[("theta_inc", [Label.num 30, Label.num 40])], [1, 2]⟩ [])
        none [("theta", Label.num 30), ("theta_inc", Label.num 40)] =
      .error (.smrt "theta and theta_inc must be the same when returning backscatter") :=
  ⟨by decide, by decide,
    (c5_inconsistent_angle (MathOps.mk (3 : ℚ) id id)
      (ResultEntity.mk RMode.A ⟨[("theta_inc", [Label.num 30, Label.num 40])], [1, 2]⟩ [])
      [("theta", Label.num 30), ("theta_inc", Label.num 40)]
      (Label.num 30) (Label.num 40) ActiveResult.BS.decibel
      (by decide) (by decide) (by decide)).2.2⟩

/-- C6: Every scalar-returning accessor (`Tb`, `TbV`, `TbH`,
`polarization_ratio`, `sigma`, `sigma_dB` and the fixed-polarization
wrappers) applies `_strongsqueeze` to its selection; `_strongsqueeze` drops
all length-1 dimensions without changing the stored values and returns a
bare number exactly when a single value remains, the reduced labelled array
otherwise. -/
theorem c6_strongsqueeze_rule (ops : MathOps α) [Field α] (x : DataArray α)
    (r : ResultEntity α) (channel : Option String) (kwargs : List (String × Label)) :
    (∀ d ∈ x.squeeze.dims, ¬ (d.2.length = 1)) ∧
    x.squeeze.values = x.values ∧
    (x.values.length = 1 → ∃ v, x.values = [v] ∧ strongsqueeze x = Sum.inl v) ∧
    (¬ (x.values.length = 1) → strongsqueeze x = Sum.inr x.squeeze) ∧
    PassiveResult.Tb r channel kwargs =
      (PassiveResult.sel_data r channel kwargs).map strongsqueeze ∧
    PassiveResult.TbV r kwargs =
      (r.data.sel (("polarization", Label.str "V") :: kwargs)).map strongsqueeze ∧
    PassiveResult.TbH r kwargs =
      (r.data.sel (("polarization", Label.str "H") :: kwargs)).map strongsqueeze ∧
    (∀ (ratio : String) (a b : DataArray α),
      r.data.sel (("polarization", Label.str (String.singleton ratio.front)) :: kwargs) =
        .ok a →
      r.data.sel (("polarization", Label.str (String.singleton ratio.back)) :: kwargs) =
        .ok b →
      PassiveResult.polarization_ratio r ratio kwargs = (a.divDA b).map strongsqueeze) ∧
    ActiveResult.sigma ops r channel kwargs =
      (ActiveResult.sel_data ops r channel (some ActiveResult.BS.natural) kwargs).map
        strongsqueeze ∧
    ActiveResult.sigma_dB ops r channel kwargs =
      (ActiveResult.sel_data ops r channel (some ActiveResult.BS.decibel) kwargs).map
        strongsqueeze ∧
    ActiveResult.sigmaVV ops r kwargs =
      ActiveResult.sigma ops r none
        (("polarization_inc", Label.str "V") :: ("polarization", Label.str "V") :: kwargs) ∧
    ActiveResult.sigmaHH ops r kwargs =
      ActiveResult.sigma ops r none
        (("polarization_inc", Label.str "H") :: ("polarization", Label.str "H") :: kwargs) := by
  refine ⟨?_, rfl, ?_, ?_, rfl, rfl, rfl, ?_, rfl, rfl, rfl, rfl⟩
  · intro d hd
    have := List.mem_filter.mp hd
    simpa using this.2
  · intro hlen
    obtain ⟨v, hv⟩ := List.length_eq_one.mp hlen
    refine ⟨v, hv, ?_⟩
    rcases x with ⟨dims, values⟩
    simp only at hv
    subst hv
    rfl
  · intro hlen
    rcases x with ⟨dims, values⟩
    simp only [List.length_eq_one] at hlen
    match values with
    | [] => rfl
    | [v] => exact absurd ⟨v, rfl⟩ hlen
    | v :: w :: rest => rfl
  · intro ratio a b ha hb
    simp only [PassiveResult.polarization_ratio, ha, hb, except_ok_bind]

/-- Witness for C6: a singleton selection squeezes to a bare number, a
two-value selection stays an array with its values unchanged, and
`polarization_ratio` on a concrete passive result divides the two
polarization slices. -/
theorem c6_strongsqueeze_rule_witness :
    (∃ v, ([(201 : ℚ)] : List ℚ) = [v] ∧
      strongsqueeze (DataArray.mk [("theta", [Label.num 30])] [(201 : ℚ)]) = Sum.inl v) ∧
    strongsqueeze (DataArray.mk [("theta", [Label.num 30, Label.num 40])] [(201 : ℚ), 202]) =
      Sum.inr (DataArray.squeeze
        (DataArray.mk [("theta", [Label.num 30, Label.num 40])] [(201 : ℚ), 202])) ∧
    PassiveResult.polarization_ratio
        (ResultEntity.mk RMode.P
          ⟨[("polarization", [Label.str "H", Label.str "V"])], [(2 : ℚ), 4]⟩ [])
        "H_V" [] =
      (DataArray.divDA ⟨[], [(2 : ℚ)]⟩ ⟨[], [(4 : ℚ)]⟩).map strongsqueeze := by
  refine ⟨?_, ?_, ?_⟩
  · exact (c6_strongsqueeze_rule (MathOps.mk (3 : ℚ) id id)
      (DataArray.mk [("theta", [Label.num 30])] [(201 : ℚ)])
      (ResultEntity.mk RMode.P ⟨[], []⟩ []) none []).2.2.1 (by decide)
  · exact (c6_strongsqueeze_rule (MathOps.mk (3 : ℚ) id id)
      (DataArray.mk [("theta", [Label.num 30, Label.num 40])] [(201 : ℚ), 202])
      (ResultEntity.mk RMode.P ⟨[], []⟩ []) none []).2.2.2.1 (by decide)
  · exact (c6_strongsqueeze_rule (MathOps.mk (3 : ℚ) id id)
      (DataArray.mk [] [])
      (ResultEntity.mk RMode.P
        ⟨[("polarization", [Label.str "H", Label.str "V"])], [(2 : ℚ), 4]⟩ [])
      none []).2.2.2.2.2.2.2.1 "H_V" ⟨[], [(2 : ℚ)]⟩ ⟨[], [(4 : ℚ)]⟩ (by rfl) (by rfl)

/-- C7: For every Active result and every selection (same channel and keyword
filters), `sigma_dB` equals `10·log10` of `sigma` — elementwise on the
selected array, where the shared selection applies the backscatter transform
`4π·cos(θ)` times the selected intensity (embedded in
`ActiveResult.sel_data_backscatter`) — for every interpretation of `log10`. -/
theorem c7_sigma_dB_is_ten_log10_sigma (ops : MathOps α) [Field α]
    (r : ResultEntity α) (channel : Option String) (kwargs : List (String × Label)) :
    ActiveResult.sel_data ops r channel (some ActiveResult.BS.decibel) kwargs =
      (ActiveResult.sel_data ops r channel (some ActiveResult.BS.natural) kwargs).map
        (DataArray.mapDA (fun v => 10 * ops.log10 v)) ∧
    ActiveResult.sigma_dB ops r channel kwargs =
      (ActiveResult.sigma ops r channel kwargs).map
        (Sum.map (fun v => 10 * ops.log10 v)
          (DataArray.mapDA (fun v => 10 * ops.log10 v))) := by
  have hsel : ActiveResult.sel_data ops r channel (some ActiveResult.BS.decibel) kwargs =
      (ActiveResult.sel_data ops r channel (some ActiveResult.BS.natural) kwargs).map
        (DataArray.mapDA (fun v => 10 * ops.log10 v)) := by
    unfold ActiveResult.sel_data
    match hx : ActiveResult.sel_data_backscatter ops r channel kwargs with
    | .error e => rfl
    | .ok x => rfl
  refine ⟨hsel, ?_⟩
  unfold ActiveResult.sigma_dB ActiveResult.sigma
  rw [hsel]
  match hx : ActiveResult.sel_data ops r channel (some ActiveResult.BS.natural) kwargs with
  | .error e => rfl
  | .ok x =>
    simp only [Except.map_ok, Except.map, strongsqueeze_mapDA]

/-- C9: For every result with a channel map and every channel name in it,
`sel_data` with that channel merges into the filter only those channel-map
coordinate entries whose key is a dimension of the stored array; coordinates
not present among the array's dimensions are silently ignored — adding such
coordinates to the channel's entry does not change the selection and never
causes an error. -/
theorem c9_channel_merge_ignores_missing_dims (ops : MathOps α) [Field α]
    (r : ResultEntity α) (ch : String) (coords : List (String × Label))
    (kwargs : List (String × Label))
    (hch : r.channel_map.lookup ch = some coords) :
    PassiveResult.sel_data r (some ch) kwargs =
      r.data.sel (dictUpdate kwargs
        (coords.filter (fun c => r.data.dimNames.contains c.1))) ∧
    ActiveResult.sel_data ops r (some ch) none kwargs =
      r.data.sel (dictUpdate kwargs
        (coords.filter (fun c => r.data.dimNames.contains c.1))) ∧
    (∀ p ∈ coords.filter (fun c => r.data.dimNames.contains c.1),
      p.1 ∈ r.data.dimNames) ∧
    (∀ (extra : List (String × Label)) (cmap' : List (String × List (String × Label))),
      cmap'.lookup ch = some (coords ++ extra) →
      (∀ p ∈ extra, ¬ (r.data.dimNames.contains p.1 = true)) →
      PassiveResult.sel_data (ResultEntity.mk r.mode r.data cmap') (some ch) kwargs =
        PassiveResult.sel_data r (some ch) kwargs) := by
  refine ⟨?_, ?_, ?_, ?_⟩
  · simp only [PassiveResult.sel_data, hch]
  · simp only [ActiveResult.sel_data, mergedKwargs, hch, except_ok_bind]
  · intro p hp
    have := List.mem_filter.mp hp
    simpa using this.2
  · intro extra cmap' hch' hextra
    simp only [PassiveResult.sel_data, hch', hch]
    have hnil : extra.filter (fun c => r.data.dimNames.contains c.1) = [] :=
      List.filter_eq_nil_iff.mpr (by intro p hp; simpa using hextra p hp)
    rw [List.filter_append, hnil, List.append_nil]

/-- Witness for C9 at a concrete active-mode result whose channel map records
both a dimension of the array (`polarization`) and coordinates absent from it
(`frequency`, `theta_inc`): the absent coordinates are dropped from the merge
and adding them changes nothing. -/
theorem c9_channel_merge_ignores_missing_dims_witness :
    ([("19V", [("frequency", Label.num 19), ("polarization", Label.str "V")])].lookup "19V" =
      some [("frequency", Label.num 19), ("polarization", Label.str "V")]) ∧
    PassiveResult.sel_data
        (ResultEntity.mk RMode.P
          ⟨[("polarization", [Label.str "V", Label.str "H"])], [(240 : ℚ), 230]⟩
          [("19V", [("frequency", Label.num 19), ("polarization", Label.str "V")])])
        (some "19V") [] =
      .ok ⟨[], [(240 : ℚ)]⟩ ∧
    PassiveResult.sel_data
        (ResultEntity.mk RMode.P
          ⟨[("polarization", [Label.str "V", Label.str "H"])], [(240 : ℚ), 230]⟩
          [("19V", [("frequency", Label.num 19), ("polarization", Label.str "V"),
                    ("theta_inc", Label.num 55)])])
        (some "19V") [] =
      PassiveResult.sel_data
        (ResultEntity.mk RMode.P
          ⟨[("polarization", [Label.str "V", Label.str "H"])], [(240 : ℚ), 230]⟩
          [("19V", [("frequency", Label.num 19), ("polarization", Label.str "V")])])
        (some "19V") [] := by
  refine ⟨by decide, ?_, ?_⟩
  · rw [(c9_channel_merge_ignores_missing_dims (MathOps.mk (3 : ℚ) id id)
      (ResultEntity.mk RMode.P
        ⟨[("polarization", [Label.str "V", Label.str "H"])], [(240 : ℚ), 230]⟩
        [("19V", [("frequency", Label.num 19), ("polarization", Label.str "V")])])
      "19V" [("frequency", Label.num 19), ("polarization", Label.str "V")] []
      (by decide)).1]
    rfl
  · exact (c9_channel_merge_ignores_missing_dims (MathOps.mk (3 : ℚ) id id)
      (ResultEntity.mk RMode.P
        ⟨[("polarization", [Label.str "V", Label.str "H"])], [(240 : ℚ), 230]⟩
        [("19V", [("frequency", Label.num 19), ("polarization", Label.str "V")])])
      "19V" [("frequency", Label.num 19), ("polarization", Label.str "V")] []
      (by decide)).2.2.2
      [("theta_inc", Label.num 55)]
      [("19V", [("frequency", Label.num 19), ("polarization", Label.str "V"),
                ("theta_inc", Label.num 55)])]
      (by decide) (by decide)

/-- C3 (counterexample): the claim as stated is false: folding three
same-subtype passive results along a 2-valued axis passes the leftover
1-element group to concatenation, where the failure is an error of the
underlying array library (`conflicting sizes`), not an SMRT `ShapeMismatch`
error — the fold itself performs no divisibility check. -/
theorem c3_counterexample :
    modelRunFold [("a", [Label.num 0, Label.num 1])]
        [ResultEntity.mk RMode.P ⟨[("x", [Label.num 0])], [(1 : ℚ)]⟩ [],
         ResultEntity.mk RMode.P ⟨[("x", [Label.num 0])], [(2 : ℚ)]⟩ [],
         ResultEntity.mk RMode.P ⟨[("x", [Label.num 0])], [(3 : ℚ)]⟩ []] =
      .error (.external "ValueError: conflicting sizes for dimension") ∧
    isSMRTError (modelRunFold [("a", [Label.num 0, Label.num 1])]
        [ResultEntity.mk RMode.P ⟨[("x", [Label.num 0])], [(1 : ℚ)]⟩ [],
         ResultEntity.mk RMode.P ⟨[("x", [Label.num 0])], [(2 : ℚ)]⟩ [],
         ResultEntity.mk RMode.P ⟨[("x", [Label.num 0])], [(3 : ℚ)]⟩ []]) = false :=
  ⟨rfl, rfl⟩

/-- C3 (amended): concatenating a group whose entities are not all of the
same concrete result subtype fails with an `SMRTError`; a group whose size
disagrees with the axis's value count (the uneven leftover of a
non-dividing group size, which the fold never checks) fails with an error of
the underlying array library, never with an SMRT error. -/
theorem c3_concat_error_kinds (r0 : ResultEntity α) (rest : List (ResultEntity α))
    (coord : String × List Label) :
    ((∃ r ∈ r0 :: rest, ¬ (r.mode = r0.mode)) →
      concat_results (r0 :: rest) coord =
        .error (.smrt "The results are not all of the same type")) ∧
    ((∀ r ∈ r0 :: rest, r.mode = r0.mode) →
      ¬ ((r0 :: rest).length = coord.2.length) →
      (∃ msg, concat_results (r0 :: rest) coord = .error (.external msg)) ∧
      isSMRTError (concat_results (r0 :: rest) coord) = false) := by
  constructor
  · intro hmix
    simp only [concat_results]
    rw [if_pos (by
      apply List.any_eq_true.mpr
      obtain ⟨r, hr, hne⟩ := hmix
      exact ⟨r, hr, by simpa using hne⟩)]
  · intro hsame hlen
    have hmode : ¬ (((r0 :: rest).any (fun r => ¬ (r.mode = r0.mode))) = true) := by
      intro hany
      obtain ⟨r, hr, hne⟩ := List.any_eq_true.mp hany
      exact absurd (hsame r hr) (by simpa using hne)
    have hx : ∃ msg, DataArray.xrConcat ((r0 :: rest).map (fun r => r.data))
        coord.1 coord.2 = Except.error (Err.external msg) := by
      rw [List.map_cons]
      by_cases hdims : ((rest.map (fun r => r.data)).any
          (fun a => ¬ (a.dims = r0.data.dims))) = true
      · refine ⟨"ValueError: cannot align objects with different dimensions", ?_⟩
        simp only [DataArray.xrConcat]
        rw [if_pos hdims]
      · refine ⟨"ValueError: conflicting sizes for dimension", ?_⟩
        simp only [DataArray.xrConcat]
        rw [if_neg hdims, if_pos (by simpa using hlen)]
    obtain ⟨msg, hmsg⟩ := hx
    have hconcat : concat_results (r0 :: rest) coord = Except.error (Err.external msg) := by
      simp only [concat_results]
      rw [if_neg hmode, hmsg]
      rfl
    exact ⟨⟨msg, hconcat⟩, by rw [hconcat]; rfl⟩

/-- Witness for C3 (amended): a passive and an active result cannot be
concatenated (SMRT error), and a same-subtype group of 1 against a 2-valued
axis fails with a non-SMRT library error. -/
theorem c3_concat_error_kinds_witness :
    ((∃ r ∈ [ResultEntity.mk RMode.P ⟨[], [(1 : ℚ)]⟩ [],
             ResultEntity.mk RMode.A ⟨[], [(2 : ℚ)]⟩ []],
        ¬ (r.mode = RMode.P)) ∧
      concat_results [ResultEntity.mk RMode.P ⟨[], [(1 : ℚ)]⟩ [],
                      ResultEntity.mk RMode.A ⟨[], [(2 : ℚ)]⟩ []]
          ("a", [Label.num 0, Label.num 1]) =
        .error (.smrt "The results are not all of the same type")) ∧
    ((∃ msg, concat_results [ResultEntity.mk RMode.P ⟨[], [(3 : ℚ)]⟩ []]
          ("a", [Label.num 0, Label.num 1]) = .error (.external msg)) ∧
      isSMRTError (concat_results [ResultEntity.mk RMode.P ⟨[], [(3 : ℚ)]⟩ []]
          ("a", [Label.num 0, Label.num 1])) = false) := by
  constructor
  · refine ⟨⟨ResultEntity.mk RMode.A ⟨[], [(2 : ℚ)]⟩ [], by simp, by decide⟩, ?_⟩
    exact (c3_concat_error_kinds (ResultEntity.mk RMode.P ⟨[], [(1 : ℚ)]⟩ [])
      [ResultEntity.mk RMode.A ⟨[], [(2 : ℚ)]⟩ []]
      ("a", [Label.num 0, Label.num 1])).1
      ⟨ResultEntity.mk RMode.A ⟨[], [(2 : ℚ)]⟩ [], by simp, by decide⟩
  · exact (c3_concat_error_kinds (ResultEntity.mk RMode.P ⟨[], [(3 : ℚ)]⟩ []) []
      ("a", [Label.num 0, Label.num 1])).2
      (by intro r hr; fin_cases hr; rfl) (by decide)

/-- C4: evaluated at two active results with different channel maps,
concatenated along the axis `("time", [0, 1])`, the merged channel map tags
each channel under the LITERAL key `"dim_name"` — the Python keyword argument
in `dict(**r.channel_map[ch], dim_name=dv)` — and not under the new axis's
name `"time"` as the spec (and the surrounding comment, "Merge de sensor
maps") intend. -/
theorem c4_channel_map_merge_uses_literal_key :
    concat_results
        [ResultEntity.mk RMode.A ⟨[("x", [Label.num 0])], [(1 : ℚ)]⟩
          [("ch1", [("frequency", Label.num 13)])],
         ResultEntity.mk RMode.A ⟨[("x", [Label.num 0])], [(2 : ℚ)]⟩
          [("ch2", [("frequency", Label.num 17)])]]
        ("time", [Label.num 0, Label.num 1]) =
      .ok (ResultEntity.mk RMode.A
        ⟨[("time", [Label.num 0, Label.num 1]), ("x", [Label.num 0])], [(1 : ℚ), 2]⟩
        [("ch1", [("frequency", Label.num 13), ("dim_name", Label.num 0)]),
         ("ch2", [("frequency", Label.num 17), ("dim_name", Label.num 1)])]) ∧
    (([("ch1", [("frequency", Label.num 13), ("dim_name", Label.num 0)]),
       ("ch2", [("frequency", Label.num 17), ("dim_name", Label.num 1)])].lookup
        "ch1").getD []).lookup "time" = none ∧
    (([("ch1", [("frequency", Label.num 13), ("dim_name", Label.num 0)]),
       ("ch2", [("frequency", Label.num 17), ("dim_name", Label.num 1)])].lookup
        "ch1").getD []).lookup "dim_name" = some (Label.num 0) :=
  ⟨rfl, rfl, rfl⟩

theorem length_flatMap_allEq (l : List T) (f : T → List U) (X : List U)
    (h : ∀ x ∈ l, f x = X) : (l.flatMap f).length = l.length * X.length := by
  induction l with
  | nil => simp
  | cons a tl ih =>
    rw [List.flatMap_cons, List.length_append, h a (by simp),
      ih (fun x hx => h x (by simp [hx])), List.length_cons]
    ring

theorem prepareRecursive_length (spseq : List S ⊕ S) :
    ∀ (scs : List (String × List Label)) (s : Sensor), Matches s scs →
      (prepareRecursive spseq s scs).length =
        (scs.map (fun c => c.2.length)).prod *
          (match spseq with
           | Sum.inl sps => sps.length
           | Sum.inr _ => 1) := by
  intro scs
  induction scs with
  | nil =>
    intro s _
    match spseq with
    | Sum.inl sps => simp [prepareRecursive]
    | Sum.inr sp => simp [prepareRecursive]
  | cons c rest ih =>
    rcases c with ⟨axis, values⟩
    intro s hm
    obtain ⟨hfind, hrest⟩ := hm
    have hiter : s.iterate axis = values.map (fun _ =>
        Sensor.mk (s.configs.filter (fun c => ¬ (c.1 = axis)))) := by
      unfold Sensor.iterate
      rw [hfind]
      simp
    rw [show prepareRecursive spseq s ((axis, values) :: rest) =
      (s.iterate axis).flatMap (fun sub => prepareRecursive spseq sub rest) from rfl]
    rw [length_flatMap_allEq _ _
      (prepareRecursive spseq
        (Sensor.mk (s.configs.filter (fun c => ¬ (c.1 = axis)))) rest)
      (by
        intro sub hsub
        rw [hiter] at hsub
        obtain ⟨v, _, hv⟩ := List.mem_map.mp hsub
        rw [← hv])]
    rw [hiter, List.length_map, ih _ hrest]
    simp only [List.map_cons, List.prod_cons]
    ring

theorem matches_of_filter (P : (String × List Label) → Bool) :
    ∀ (scs : List (String × List Label)) (s : Sensor),
      (s.configs.map Prod.fst).Nodup → scs = s.configs.filter P → Matches s scs := by
  intro scs
  induction scs with
  | nil => intro s _ _; trivial
  | cons c rest ih =>
    rcases c with ⟨axis, values⟩
    intro s hnodup hfilter
    have hmem : (axis, values) ∈ s.configs.filter P := by
      rw [← hfilter]
      simp
    have hmem' : (axis, values) ∈ s.configs := List.mem_of_mem_filter hmem
    constructor
    · have hsome : (s.configs.find? (fun c => c.1 = axis)).isSome := by
        apply List.find?_isSome.mpr
        exact ⟨(axis, values), hmem', by simp⟩
      obtain ⟨p, hp⟩ := Option.isSome_iff_exists.mp hsome
      have hpmem : p ∈ s.configs := List.mem_of_find?_eq_some hp
      have hpkey : p.1 = axis := by simpa using List.find?_some hp
      have hpeq : p = (axis, values) :=
        List.inj_on_of_nodup_map hnodup hpmem hmem' (by rw [hpkey])
      rw [hp, hpeq]
    · apply ih
      · exact List.Nodup.sublist (List.Sublist.map _ (List.filter_sublist _)) hnodup
      · have hcomm : (s.configs.filter (fun c => ¬ (c.1 = axis))).filter P
            = (s.configs.filter P).filter (fun c => ¬ (c.1 = axis)) := by
          rw [List.filter_filter, List.filter_filter]
          congr 1
          funext c
          rw [Bool.and_comm]
        have hkeys : ∀ c ∈ rest, ¬ (c.1 = axis) := by
          intro c hc hceq
          have hsub : List.Sublist (((axis, values) :: rest).map Prod.fst)
              (s.configs.map Prod.fst) :=
            hfilter ▸ List.Sublist.map _ (List.filter_sublist _)
          have hnd : (((axis, values) :: rest).map Prod.fst).Nodup :=
            List.Nodup.sublist hsub hnodup
          simp only [List.map_cons, List.nodup_cons] at hnd
          exact hnd.1 (by
            apply List.mem_map.mpr
            exact ⟨c, hc, by rw [hceq]⟩)
        show rest = (s.configs.filter (fun c => ¬ (c.1 = axis))).filter P
        have hself : rest.filter (fun c => ¬ (c.1 = axis)) = rest :=
          List.filter_eq_self.mpr (fun c hc => by simpa using hkeys c hc)
        rw [hcomm, ← hfilter, List.filter_cons, if_neg (by simp), hself]

theorem foldWith_aux (concat : List R → (String × List Label) → R) :
    ∀ (rdims : List (String × List Label)) (results : List R),
      (∀ d ∈ rdims, ¬ (d.2 = [])) →
      results.length = (rdims.map (fun d => d.2.length)).prod →
      (rdims.foldl (fun acc dimension =>
        (chunkList dimension.2.length acc).map (fun group => concat group dimension))
        results).length = 1 := by
  intro rdims
  induction rdims with
  | nil =>
    intro results _ hlen
    simpa using hlen
  | cons d tl ih =>
    intro results hne hlen
    rw [List.foldl_cons]
    apply ih _ (fun x hx => hne x (by simp [hx]))
    rw [List.length_map]
    apply chunkList_length_mul d.2.length _
      (List.length_pos.mpr (hne d (by simp)))
    simpa [List.map_cons, List.prod_cons] using hlen

theorem foldWith_length (concat : List R → (String × List Label) → R)
    (dims : List (String × List Label)) (results : List R)
    (hne : ∀ d ∈ dims, ¬ (d.2 = []))
    (hlen : results.length = (dims.map (fun d => d.2.length)).prod) :
    (foldWith concat dims results).length = 1 := by
  unfold foldWith
  apply foldWith_aux concat dims.reverse results
  · intro d hd
    exact hne d (List.mem_reverse.mp hd)
  · rw [hlen, List.map_reverse, List.prod_reverse]

theorem mapM_ok_length {f : T → Except Err U} :
    ∀ (l : List T) (out : List U), l.mapM f = .ok out → out.length = l.length := by
  intro l
  induction l with
  | nil =>
    intro out hok
    simp only [List.mapM_nil] at hok
    cases hok
    rfl
  | cons x tl ih =>
    intro out hok
    rw [List.mapM_cons] at hok
    match hfx : f x with
    | .error e => rw [hfx] at hok; exact absurd hok (by simp [Bind.bind, Except.bind])
    | .ok b =>
      rw [hfx, except_ok_bind] at hok
      match htl : tl.mapM f with
      | .error e => rw [htl] at hok; exact absurd hok (by simp [Bind.bind, Except.bind])
      | .ok bs =>
        rw [htl, except_ok_bind] at hok
        cases hok
        simp [ih bs htl]

theorem modelRunFold_aux :
    ∀ (rdims : List (String × List Label)) (results out : List (ResultEntity α)),
      (∀ d ∈ rdims, ¬ (d.2 = [])) →
      results.length = (rdims.map (fun d => d.2.length)).prod →
      rdims.foldlM (fun acc dimension =>
        (chunkList dimension.2.length acc).mapM
          (fun group => concat_results group dimension)) results = .ok out →
      out.length = 1 := by
  intro rdims
  induction rdims with
  | nil =>
    intro results out _ hlen hok
    simp only [List.foldlM_nil] at hok
    cases hok
    simpa using hlen
  | cons d tl ih =>
    intro results out hne hlen hok
    rw [List.foldlM_cons] at hok
    match hstep : (chunkList d.2.length results).mapM
        (fun group => concat_results group d) with
    | .error e =>
      rw [hstep] at hok
      exact absurd hok (by simp [Bind.bind, Except.bind])
    | .ok acc =>
      rw [hstep, except_ok_bind] at hok
      apply ih acc out (fun x hx => hne x (by simp [hx])) ?_ hok
      rw [mapM_ok_length _ _ hstep]
      apply chunkList_length_mul d.2.length _
        (List.length_pos.mpr (hne d (by simp)))
      simpa [List.map_cons, List.prod_cons] using hlen

theorem modelRunFold_ok_length (dims : List (String × List Label))
    (results out : List (ResultEntity α))
    (hne : ∀ d ∈ dims, ¬ (d.2 = []))
    (hlen : results.length = (dims.map (fun d => d.2.length)).prod)
    (hok : modelRunFold dims results = .ok out) : out.length = 1 := by
  apply modelRunFold_aux dims.reverse results out
  · intro d hd
    exact hne d (List.mem_reverse.mp hd)
  · rw [hlen, List.map_reverse, List.prod_reverse]
  · exact hok

theorem prepare_simulations_ok_shape (sensor : Sensor) (cap : List String)
    (snowpack : SnowpackArg S) (sd : Option (String × Option (List Label)))
    (sims : List (Sensor × S)) (dims : List (String × List Label))
    (hok : prepare_simulations sensor cap snowpack sd = .ok (sims, dims)) :
    (∃ sp, sims = prepareRecursive (Sum.inr sp) sensor
        (sensor.configs.filter (fun (c : String × List Label) => ¬ cap.contains c.1)) ∧
      dims = sensor.configs.filter (fun (c : String × List Label) => ¬ cap.contains c.1)) ∨
    (∃ (sps : List S) (nm : String) (values : List Label),
      sps.length = values.length ∧
      sims = prepareRecursive (Sum.inl sps) sensor
        (sensor.configs.filter (fun (c : String × List Label) => ¬ cap.contains c.1)) ∧
      dims = sensor.configs.filter (fun (c : String × List Label) => ¬ cap.contains c.1)
        ++ [(nm, values)]) := by
  rcases snowpack with sp | sps | entries
  · rcases sd with _ | ⟨nm, vals⟩
    · left
      simp only [prepare_simulations, normalizeDict, applySeqDefaults, prepareFinal] at hok
      rw [Except.ok.injEq, Prod.mk.injEq] at hok
      exact ⟨sp, hok.1.symm, hok.2.symm⟩
    · rcases vals with _ | vs
      · simp only [prepare_simulations, normalizeDict, applySeqDefaults, prepareFinal] at hok
        exact absurd hok (by simp)
      · simp only [prepare_simulations, normalizeDict, applySeqDefaults, prepareFinal] at hok
        exact absurd hok (by simp)
  · right
    rcases sd with _ | ⟨nm, vals⟩
    · simp only [prepare_simulations, normalizeDict, applySeqDefaults, prepareFinal] at hok
      split at hok
      · exact absurd hok (by simp)
      · rw [Except.ok.injEq, Prod.mk.injEq] at hok
        exact ⟨sps, "snowpack", (List.range sps.length).map (fun i : ℕ => Label.num i),
          by simp, hok.1.symm, hok.2.symm⟩
    · rcases vals with _ | vs
      · simp only [prepare_simulations, normalizeDict, applySeqDefaults, prepareFinal] at hok
        split at hok
        · exact absurd hok (by simp)
        · rw [Except.ok.injEq, Prod.mk.injEq] at hok
          exact ⟨sps, nm, (List.range sps.length).map (fun i : ℕ => Label.num i),
            by simp, hok.1.symm, hok.2.symm⟩
      · simp only [prepare_simulations, normalizeDict, applySeqDefaults, prepareFinal] at hok
        split at hok
        · exact absurd hok (by simp)
        · rename_i h
          rw [Except.ok.injEq, Prod.mk.injEq] at hok
          exact ⟨sps, nm, vs, not_not.mp h, hok.1.symm, hok.2.symm⟩
  · right
    simp only [prepare_simulations, normalizeDict, applySeqDefaults, prepareFinal] at hok
    split at hok
    · exact absurd hok (by simp)
    · rename_i h
      rw [Except.ok.injEq, Prod.mk.injEq] at hok
      exact ⟨entries.map Prod.snd, "snowpack", entries.map (fun e => Label.str e.1),
        by simp, hok.1.symm, hok.2.symm⟩

/-- C10: For every sensor (with distinct axis names) and snowpack argument
accepted by `prepare_simulations`, the number of simulation units in the flat
sequence equals the product of the lengths of the value lists of all
returned AxisDescriptors (1 when the list is empty), so the fold loop in
`Model.run` always reduces the flat result list to exactly one result — both
for an opaque total concatenation and for the real `concat_results` fold
whenever it succeeds. -/
theorem c10_unit_count_is_axis_product (sensor : Sensor) (cap : List String)
    (snowpack : SnowpackArg S) (sd : Option (String × Option (List Label)))
    (sims : List (Sensor × S)) (dims : List (String × List Label))
    (hnodup : (sensor.configs.map Prod.fst).Nodup)
    (hok : prepare_simulations sensor cap snowpack sd = .ok (sims, dims))
    (hne : ∀ d ∈ dims, ¬ (d.2 = []))
    (f : Sensor × S → ResultEntity α)
    (concat : List R → (String × List Label) → R) (g : Sensor × S → R) :
    sims.length = (dims.map (fun d => d.2.length)).prod ∧
    (foldWith concat dims (sims.map g)).length = 1 ∧
    (∀ out, modelRunFold dims (sims.map f) = .ok out → out.length = 1) := by
  have hmatch : Matches sensor (sensor.configs.filter
      (fun (c : String × List Label) => ¬ cap.contains c.1)) :=
    matches_of_filter _ _ sensor hnodup rfl
  have hcount : sims.length = (dims.map (fun d => d.2.length)).prod := by
    rcases prepare_simulations_ok_shape sensor cap snowpack sd sims dims hok with
      ⟨sp, hsims, hdims⟩ | ⟨sps, nm, values, hlen, hsims, hdims⟩
    · rw [hsims, hdims, prepareRecursive_length (Sum.inr sp) _ sensor hmatch]
      simp
    · rw [hsims, hdims, prepareRecursive_length (Sum.inl sps) _ sensor hmatch]
      simp [List.map_append, List.prod_append, hlen]
  refine ⟨hcount, ?_, ?_⟩
  · exact foldWith_length concat dims (sims.map g) hne
      (by rw [List.length_map, hcount])
  · intro out hokf
    exact modelRunFold_ok_length dims (sims.map f) out hne
      (by rw [List.length_map, hcount]) hokf

/-- Witness for C10: a sensor with one 2-valued axis and two snowpacks
expands to 4 units, matching the product of the two returned axis lengths,
and the fold reduces the 4 results to exactly one. -/
theorem c10_unit_count_is_axis_product_witness :
    ((Sensor.mk [("frequency", [Label.num 19, Label.num 37])]).configs.map Prod.fst).Nodup ∧
    prepare_simulations (Sensor.mk [("frequency", [Label.num 19, Label.num 37])]) []
        (SnowpackArg.many [(5 : ℕ), 7]) none =
      .ok ([(Sensor.mk [], 5), (Sensor.mk [], 7), (Sensor.mk [], 5), (Sensor.mk [], 7)],
        [("frequency", [Label.num 19, Label.num 37]),
         ("snowpack", [Label.num 0, Label.num 1])]) ∧
    ([((Sensor.mk [] : Sensor), (5 : ℕ)), (Sensor.mk [], 7),
      (Sensor.mk [], 5), (Sensor.mk [], 7)].length =
      ([("frequency", [Label.num 19, Label.num 37]),
        ("snowpack", [Label.num 0, Label.num 1])].map
          (fun d => d.2.length)).prod) ∧
    (foldWith (fun _ _ => (0 : ℕ))
      [("frequency", [Label.num 19, Label.num 37]),
       ("snowpack", [Label.num 0, Label.num 1])]
      ([((Sensor.mk [] : Sensor), (5 : ℕ)), (Sensor.mk [], 7),
        (Sensor.mk [], 5), (Sensor.mk [], 7)].map (fun _ => (1 : ℕ)))).length = 1 := by
  have h := c10_unit_count_is_axis_product (α := ℚ) (R := ℕ)
    (Sensor.mk [("frequency", [Label.num 19, Label.num 37])]) []
    (SnowpackArg.many [(5 : ℕ), 7]) none
    [(Sensor.mk [], 5), (Sensor.mk [], 7), (Sensor.mk [], 5), (Sensor.mk [], 7)]
    [("frequency", [Label.num 19, Label.num 37]),
     ("snowpack", [Label.num 0, Label.num 1])]
    (by decide) (by rfl) (by decide)
    (fun _ => ResultEntity.mk RMode.P ⟨[], [(1 : ℚ)]⟩ [])
    (fun _ _ => (0 : ℕ)) (fun _ => (1 : ℕ))
  exact ⟨by decide, by rfl, h.1, h.2.1⟩

end SMRT
